import Mathlib

/-!
Verification development for the GulpIO dataset-adapter module
(src/main/python/gulpio/adapters.py).

The Python module is shallowly embedded as follows.

Strings are Lean String values, and the Python string operations used by the
module (split, strip, endswith, os.path.basename, os.path.dirname,
os.path.join) are re-implemented structurally over the underlying character
list so that all definitions evaluate by kernel reduction.

External collaborators (frame decoding, resizing, video bursting, filesystem
globbing) are treated as an explicit environment record of functions, exactly
as the specification treats them: contracts consumed by the adapters.
Failure of resize_by_short_edge with ImageNotFound is modelled by the
environment returning none for that path.

Each adapter class becomes a structure holding the state its __init__ sets up
(data, label dictionary, all_meta, configuration). The generator iter_data is
embedded as a function producing the full trace of observable events of the
produced lazy sequence: one yielded event per produced IterationResult, one
wrote event fired by the for/else clause at natural exhaustion of the loop,
and one raised event when an uncaught exception aborts the iteration. A
consumer that abandons the sequence after k results observes exactly the
prefix of the trace ending with the k-th yielded event, because the
generator only runs up to each yield as the consumer advances.

Shuffling (random.shuffle) is modelled by a caller-supplied reordering
function applied to all_meta at construction when the shuffle flag is set.
-/

/-! Python string primitives, re-implemented so they reduce in the kernel. -/

/-- Lexicographic code-point comparison of character lists, the order that
Python sorted() uses on strings. -/
def charListLe : List Char → List Char → Bool
  | [], _ => true
  | _ :: _, [] => false
  | a :: as, b :: bs =>
    if a.toNat = b.toNat then charListLe as bs
    else decide (a.toNat < b.toNat)

/-- Python string order: a is less-or-equal b by code points. -/
def pyStrLe (a b : String) : Prop := charListLe a.data b.data = true

instance : DecidableRel pyStrLe := fun _ _ => instDecidableEqBool _ _

/-- Splits a character list on a separator character, keeping empty pieces,
like Python str.split with a one-character separator. -/
def splitOnChar (c : Char) : List Char → List (List Char)
  | [] => [[]]
  | x :: xs =>
    let r := splitOnChar c xs
    if x = c then [] :: r
    else
      match r with
      | [] => [[x]]
      | h :: t => (x :: h) :: t

/-- Python str.split with a one-character separator. -/
def pySplit (s : String) (c : Char) : List String :=
  (splitOnChar c s.data).map (fun l => String.mk l)

/-- Python str.endswith. -/
def pyEndsWith (s tail : String) : Bool :=
  List.isSuffixOf tail.data s.data

/-- Python str.strip: removes leading and trailing whitespace. -/
def pyTrim (s : String) : String :=
  String.mk (((s.data.dropWhile Char.isWhitespace).reverse.dropWhile Char.isWhitespace).reverse)

/-- Joins string pieces with a separator, like sep.join(parts) in Python. -/
def pyJoin (sep : String) : List String → String
  | [] => ""
  | [x] => x
  | x :: xs => x ++ sep ++ pyJoin sep xs

/-- Python os.path.basename for POSIX paths: the part after the last slash. -/
def basename (p : String) : String :=
  (pySplit p '/').getLastD ""

/-- Python os.path.dirname for POSIX paths: everything before the last slash,
empty when there is no slash. The special case of a path directly under the
filesystem root is not needed by any input considered here. -/
def dirname (p : String) : String :=
  let parts := pySplit p '/'
  if parts.length ≤ 1 then "" else pyJoin "/" parts.dropLast

/-- Python os.path.join for two relative POSIX components, as used by the
adapters: an empty first component disappears, otherwise one slash separates
the two parts. -/
def joinPath (a b : String) : String :=
  if a = "" then b
  else if pyEndsWith a "/" then a ++ b
  else a ++ "/" ++ b

/-- Lines obtained by iterating over an opened text file in Python, with the
line terminators stripped: a trailing newline does not produce a final empty
line. -/
def fileLines (content : String) : List String :=
  let parts := pySplit content '\n'
  if parts.getLastD "" = "" then parts.dropLast else parts

/-! Data model of the specification. -/

/-- RawRecord: one manifest entry exactly as parsed, before label indexing.
For the JSON variant the template field is the label, stored here in the
label field. The path field is present only for the image-based adapters. -/
structure RawRecord where
  id : String
  label : String
  path : Option String := none
  deriving DecidableEq

/-- MetaRecord: a RawRecord enriched with the resolved integer label index.
A missing path key of the underlying Python dict is modelled by path = none. -/
structure MetaRecord where
  id : String
  label : String
  idx : Nat
  path : Option String := none
  deriving DecidableEq

/-- Frame: a decoded and resized image, kept purely symbolic here. -/
abbrev Frame := String

/-- IterationResult: the unit produced by iter_data. -/
structure IterationResult where
  meta : MetaRecord
  frames : List Frame
  id : String
  deriving DecidableEq

/-- Exceptions that can abort an iteration. -/
inductive IterErr where
  | keyError : String → IterErr
  | imageNotFound : String → IterErr
  | videoNotFound : String → IterErr
  deriving DecidableEq

/-- One observable event of the lazy sequence produced by iter_data. -/
inductive IterEvent where
  | yielded : IterationResult → IterEvent
  | wrote : List (String × Nat) → IterEvent
  | raised : IterErr → IterEvent
  deriving DecidableEq

/-- Environment of external collaborators. resizeByShortEdge returns none
exactly when the referenced image cannot be found or decoded, the condition
raised as ImageNotFound in the source. videoPath returns none when
get_single_video_path would fail. burstFrames and imagesInFolder list frame
image paths. One per-image resize function also stands in for the elementwise
behaviour of resize_images from the utils module. -/
structure Env where
  resizeByShortEdge : String → Int → Option Frame
  imagesInFolder : String → List String
  videoPath : String → Option String
  burstFrames : String → Int → List String

/-! Label indexing. -/

/-- Lookup in an association-list dictionary, defaulting to 0. In every use
below the key is a label drawn from the same data the dictionary was built
from, so the default is never reached. -/
def dictGet (d : List (String × Nat)) (k : String) : Nat :=
  (List.lookup k d).getD 0

/-- From Custom20BNAdapterMixin.create_label2idx_dict: collect the labels of
all records, deduplicate (Python set), sort (Python sorted), and pair each
label with its position. The label field selector stands for the label_name
parameter of the source. -/
def Custom20BNAdapterMixin.create_label2idx_dict
    (label_of : RawRecord → String) (data : List RawRecord) : List (String × Nat) :=
  let labels := List.insertionSort pyStrLe ((data.map label_of).dedup)
  labels.enum.map (fun p => (p.2, p.1))

/-- From ImageListAdapter.create_label2idx_dict, a verbatim copy of the mixin
logic with the label field fixed. -/
def ImageListAdapter.create_label2idx_dict (data : List RawRecord) : List (String × Nat) :=
  let labels := List.insertionSort pyStrLe ((data.map (fun item => item.label)).dedup)
  labels.enum.map (fun p => (p.2, p.1))

/-- From ImageFolderAdapter.create_label2idx_dict, again a verbatim copy of
the mixin logic with the label field fixed. -/
def ImageFolderAdapter.create_label2idx_dict (data : List RawRecord) : List (String × Nat) :=
  let labels := List.insertionSort pyStrLe ((data.map (fun item => item.label)).dedup)
  labels.enum.map (fun p => (p.2, p.1))

/-! Frame acquisition helpers. -/

/-- From utils.resize_images as consumed by the adapters: resizes every frame
image on the list, failing with the first unreadable path. The adapters force
the whole list at once, so a single failure aborts the record. -/
def resize_images (env : Env) (frame_size : Int) : List String → Except String (List Frame)
  | [] => .ok []
  | p :: rest =>
    match env.resizeByShortEdge p frame_size with
    | none => .error p
    | some f => (resize_images env frame_size rest).map (fun fs => f :: fs)

/-! The JSON/video adapter. -/

structure Custom20BNJsonVideoAdapter where
  data : List RawRecord
  labels2idx : List (String × Nat)
  all_meta : List MetaRecord
  folder : String
  shuffle : Bool
  frame_size : Int
  frame_rate : Int
  deriving DecidableEq

/-- From Custom20BNJsonVideoAdapter.get_meta. -/
def Custom20BNJsonVideoAdapter.get_meta
    (data : List RawRecord) (labels2idx : List (String × Nat)) : List MetaRecord :=
  data.map (fun entry =>
    { id := entry.id, label := entry.label, idx := dictGet labels2idx entry.label, path := none })

/-- Shared tail of Custom20BNJsonVideoAdapter.__init__ after the data file has
been read: build the label dictionary, build all_meta, shuffle on request. -/
def Custom20BNJsonVideoAdapter.build (data : List RawRecord) (folder : String)
    (shuffle : Bool) (shuffleFn : List MetaRecord → List MetaRecord)
    (frame_size frame_rate : Int) : Custom20BNJsonVideoAdapter :=
  let labels2idx := Custom20BNAdapterMixin.create_label2idx_dict (fun r => r.label) data
  let all_meta := Custom20BNJsonVideoAdapter.get_meta data labels2idx
  { data := data, labels2idx := labels2idx,
    all_meta := if shuffle then shuffleFn all_meta else all_meta,
    folder := folder, shuffle := shuffle,
    frame_size := frame_size, frame_rate := frame_rate }

/-- From Custom20BNJsonVideoAdapter.__init__: dispatch on the data file name.
A name ending in .json.gz is read as gzip-compressed JSON, a name ending in
.json as plain JSON, anything else raises RuntimeError before any adapter is
produced. The two readers are environment functions from the file name to the
parsed entry list. -/
def Custom20BNJsonVideoAdapter.init (json_file folder : String)
    (shuffle : Bool) (shuffleFn : List MetaRecord → List MetaRecord)
    (read_json read_gz_json : String → List RawRecord)
    (frame_size frame_rate : Int) : Except String Custom20BNJsonVideoAdapter :=
  if pyEndsWith json_file ".json.gz" then
    .ok (Custom20BNJsonVideoAdapter.build (read_gz_json json_file) folder
      shuffle shuffleFn frame_size frame_rate)
  else if pyEndsWith json_file ".json" then
    .ok (Custom20BNJsonVideoAdapter.build (read_json json_file) folder
      shuffle shuffleFn frame_size frame_rate)
  else
    .error "Wrong data file format (.json.gz or .json)"

/-- From Custom20BNJsonVideoAdapter.__len__. -/
def Custom20BNJsonVideoAdapter.len (st : Custom20BNJsonVideoAdapter) : Nat :=
  st.data.length

/-- Body of the iter_data loop of the JSON/video adapter for one record:
locate the single video, burst it into frames, resize them. Any failure
propagates out of the generator. -/
def Custom20BNJsonVideoAdapter.step (st : Custom20BNJsonVideoAdapter) (env : Env)
    (meta : MetaRecord) : Except IterErr IterationResult :=
  let video_folder := joinPath st.folder meta.id
  match env.videoPath video_folder with
  | none => .error (.videoNotFound video_folder)
  | some video_path =>
    match resize_images env st.frame_size (env.burstFrames video_path st.frame_rate) with
    | .error p => .error (.imageNotFound p)
    | .ok frames => .ok { meta := meta, frames := frames, id := meta.id }

/-- The common for/else generator shape of the three adapters that do not
mutate their state: walk the sliced meta list, yield one result per record,
abort on the first uncaught exception, and on natural exhaustion of the loop
fire the write of the label dictionary (the for/else clause calling
write_label2idx_dict). -/
def iterLoop (step : MetaRecord → Except IterErr IterationResult)
    (labelDict : List (String × Nat)) : List MetaRecord → List IterEvent
  | [] => [.wrote labelDict]
  | meta :: rest =>
    match step meta with
    | .error e => [.raised e]
    | .ok r => .yielded r :: iterLoop step labelDict rest

/-- From Custom20BNJsonVideoAdapter.iter_data with slice argument [a, b). -/
def Custom20BNJsonVideoAdapter.iter_data (st : Custom20BNJsonVideoAdapter) (env : Env)
    (a b : Nat) : List IterEvent :=
  iterLoop (Custom20BNJsonVideoAdapter.step st env) st.labels2idx
    ((st.all_meta.drop a).take (b - a))

/-! The CSV/JPEG adapter. -/

structure Custom20BNCsvJpegAdapter where
  data : List RawRecord
  labels2idx : List (String × Nat)
  all_meta : List MetaRecord
  folder : String
  shuffle : Bool
  frame_size : Int
  deriving DecidableEq

/-- From Custom20BNCsvJpegAdapter.read_csv: semicolon-delimited rows with no
header, column 0 the id and column 1 the label. A row without a second column
makes the Python code raise IndexError, modelled as none. -/
def Custom20BNCsvJpegAdapter.read_csv (content : String) : Option (List RawRecord) :=
  (fileLines content).mapM (fun line =>
    match pySplit line ';' with
    | r0 :: r1 :: _ => some { id := r0, label := r1, path := none }
    | _ => none)

/-- From Custom20BNCsvJpegAdapter.get_meta. -/
def Custom20BNCsvJpegAdapter.get_meta
    (data : List RawRecord) (labels2idx : List (String × Nat)) : List MetaRecord :=
  data.map (fun entry =>
    { id := entry.id, label := entry.label, idx := dictGet labels2idx entry.label, path := none })

/-- From Custom20BNCsvJpegAdapter.__init__. -/
def Custom20BNCsvJpegAdapter.init (csv_content folder : String) (shuffle : Bool)
    (shuffleFn : List MetaRecord → List MetaRecord) (frame_size : Int) :
    Option Custom20BNCsvJpegAdapter :=
  (Custom20BNCsvJpegAdapter.read_csv csv_content).map (fun data =>
    let labels2idx := Custom20BNAdapterMixin.create_label2idx_dict (fun r => r.label) data
    let all_meta := Custom20BNCsvJpegAdapter.get_meta data labels2idx
    { data := data, labels2idx := labels2idx,
      all_meta := if shuffle then shuffleFn all_meta else all_meta,
      folder := folder, shuffle := shuffle, frame_size := frame_size })

/-- From Custom20BNCsvJpegAdapter.__len__. -/
def Custom20BNCsvJpegAdapter.len (st : Custom20BNCsvJpegAdapter) : Nat :=
  st.data.length

/-- Body of the iter_data loop of the CSV/JPEG adapter for one record:
enumerate the frame images of the folder named by the record id and resize
each. Any failure propagates out of the generator. -/
def Custom20BNCsvJpegAdapter.step (st : Custom20BNCsvJpegAdapter) (env : Env)
    (meta : MetaRecord) : Except IterErr IterationResult :=
  let video_folder := joinPath st.folder meta.id
  let frame_paths := env.imagesInFolder video_folder
  match resize_images env st.frame_size frame_paths with
  | .error p => .error (.imageNotFound p)
  | .ok frames => .ok { meta := meta, frames := frames, id := meta.id }

/-- From Custom20BNCsvJpegAdapter.iter_data with slice argument [a, b). -/
def Custom20BNCsvJpegAdapter.iter_data (st : Custom20BNCsvJpegAdapter) (env : Env)
    (a b : Nat) : List IterEvent :=
  iterLoop (Custom20BNCsvJpegAdapter.step st env) st.labels2idx
    ((st.all_meta.drop a).take (b - a))

/-! The image-list adapter. -/

structure ImageListAdapter where
  data : List RawRecord
  label2idx : List (String × Nat)
  all_meta : List MetaRecord
  root_folder : String
  shuffle : Bool
  img_size : Int
  deriving DecidableEq

/-- From ImageListAdapter.parse_paths: one record per stripped line of the
list file, each line img_path comma label_name; the id is the basename of the
path and the full path is retained. A line that does not split into exactly
two pieces makes the Python unpacking raise ValueError, modelled as none. -/
def ImageListAdapter.parse_paths (content : String) : Option (List RawRecord) :=
  (fileLines content).mapM (fun item =>
    match pySplit (pyTrim item) ',' with
    | [img_path, label_name] =>
      some { id := basename img_path, label := label_name, path := some img_path }
    | _ => none)

/-- From ImageListAdapter.get_meta: the path is kept on the meta record. -/
def ImageListAdapter.get_meta
    (data : List RawRecord) (label2idx : List (String × Nat)) : List MetaRecord :=
  data.map (fun entry =>
    { id := entry.id, label := entry.label, idx := dictGet label2idx entry.label,
      path := entry.path })

/-- From ImageListAdapter.__init__. -/
def ImageListAdapter.init (content root_folder : String) (shuffle : Bool)
    (shuffleFn : List MetaRecord → List MetaRecord) (img_size : Int) :
    Option ImageListAdapter :=
  (ImageListAdapter.parse_paths content).map (fun data =>
    let label2idx := ImageListAdapter.create_label2idx_dict data
    let all_meta := ImageListAdapter.get_meta data label2idx
    { data := data, label2idx := label2idx,
      all_meta := if shuffle then shuffleFn all_meta else all_meta,
      root_folder := root_folder, shuffle := shuffle, img_size := img_size })

/-- From ImageListAdapter.__len__. -/
def ImageListAdapter.len (st : ImageListAdapter) : Nat :=
  st.data.length

/-- Loop of ImageListAdapter.iter_data. Besides the event trace it returns
the meta list as it stands in the adapter after the run, because the loop
mutates the stored records: a record whose image resolves has its path key
popped in place before being yielded, a record whose image cannot be found is
skipped (the ImageNotFound handler) and left intact, and a record whose path
key is already missing makes the subscript meta of path raise KeyError, which
aborts the loop leaving the rest untouched. -/
def ImageListAdapter.iterLoop (st : ImageListAdapter) (env : Env) :
    List MetaRecord → List IterEvent × List MetaRecord
  | [] => ([.wrote st.label2idx], [])
  | meta :: rest =>
    match meta.path with
    | none => ([.raised (.keyError "path")], meta :: rest)
    | some p =>
      let img_path := joinPath st.root_folder p
      match env.resizeByShortEdge img_path st.img_size with
      | none =>
        let next := ImageListAdapter.iterLoop st env rest
        (next.1, meta :: next.2)
      | some img =>
        let meta2 : MetaRecord := { meta with path := none }
        let next := ImageListAdapter.iterLoop st env rest
        (.yielded { meta := meta2, frames := [img], id := meta2.id } :: next.1,
         meta2 :: next.2)

/-- From ImageListAdapter.iter_data with slice argument [a, b). The source
reassigns self.all_meta to the slice before looping, so the adapter state
after the run carries the processed slice, not the original list. -/
def ImageListAdapter.iter_data (st : ImageListAdapter) (env : Env) (a b : Nat) :
    List IterEvent × ImageListAdapter :=
  let sliced := (st.all_meta.drop a).take (b - a)
  let r := ImageListAdapter.iterLoop st env sliced
  (r.1, { st with all_meta := r.2 })

/-! The image-folder adapter. -/

structure ImageFolderAdapter where
  data : List RawRecord
  label2idx : List (String × Nat)
  all_meta : List MetaRecord
  folder : String
  shuffle : Bool
  img_size : Int
  deriving DecidableEq

/-- From ImageFolderAdapter.parse_folder. The glob function abstracts
glob.glob(pattern, recursive=True) over the filesystem. The source builds one
search pattern per configured extension inside the for loop, but the
accumulation of paths into img_paths sits after the loop, so only the glob
results of the last extension are ever collected; with an empty extension
list the Python code would raise NameError, a case no caller exercises. -/
def ImageFolderAdapter.parse_folder (glob : String → List String)
    (file_extensions : List String) (folder : String) : List RawRecord :=
  let paths := file_extensions.foldl
    (fun _ extension => glob (folder ++ "**/*" ++ extension)) []
  let img_paths : List String := [] ++ paths
  let img_paths := List.insertionSort pyStrLe img_paths
  img_paths.map (fun img_path =>
    let path := dirname img_path
    let category_name := (pySplit path '/').getLastD ""
    let img_name := basename img_path
    { id := img_name, label := category_name, path := some path })

/-- From ImageFolderAdapter.get_meta: the path is kept on the meta record. -/
def ImageFolderAdapter.get_meta
    (data : List RawRecord) (label2idx : List (String × Nat)) : List MetaRecord :=
  data.map (fun entry =>
    { id := entry.id, label := entry.label, idx := dictGet label2idx entry.label,
      path := entry.path })

/-- From ImageFolderAdapter.__len__. -/
def ImageFolderAdapter.len (st : ImageFolderAdapter) : Nat :=
  st.data.length

/-- From ImageFolderAdapter.__init__: scan the folder tree, build the label
dictionary and all_meta, and shuffle on request. The glob function abstracts
the filesystem exactly as in parse_folder. The construction is total. -/
def ImageFolderAdapter.init (glob : String → List String) (folder : String)
    (file_extensions : List String) (shuffle : Bool)
    (shuffleFn : List MetaRecord → List MetaRecord) (img_size : Int) : ImageFolderAdapter :=
  let data := ImageFolderAdapter.parse_folder glob file_extensions folder
  let label2idx := ImageFolderAdapter.create_label2idx_dict data
  let all_meta := ImageFolderAdapter.get_meta data label2idx
  { data := data, label2idx := label2idx,
    all_meta := if shuffle then shuffleFn all_meta else all_meta,
    folder := folder, shuffle := shuffle, img_size := img_size }

/-- Body of the iter_data loop of the image-folder adapter for one record:
resolve the image below folder, path and id, and resize it by short edge.
There is no handler, so a missing image propagates out of the generator. -/
def ImageFolderAdapter.step (st : ImageFolderAdapter) (env : Env)
    (meta : MetaRecord) : Except IterErr IterationResult :=
  match meta.path with
  | none => .error (.keyError "path")
  | some p =>
    let img_path := joinPath (joinPath st.folder p) meta.id
    match env.resizeByShortEdge img_path st.img_size with
    | none => .error (.imageNotFound img_path)
    | some img => .ok { meta := meta, frames := [img], id := meta.id }

/-- From ImageFolderAdapter.iter_data with slice argument [a, b). -/
def ImageFolderAdapter.iter_data (st : ImageFolderAdapter) (env : Env)
    (a b : Nat) : List IterEvent :=
  iterLoop (ImageFolderAdapter.step st env) st.label2idx
    ((st.all_meta.drop a).take (b - a))

/-! Observations on event traces. -/

def IterEvent.isWrite : IterEvent → Bool
  | .wrote _ => true
  | _ => false

def IterEvent.isRaised : IterEvent → Bool
  | .raised _ => true
  | _ => false

def IterEvent.isYield : IterEvent → Bool
  | .yielded _ => true
  | _ => false

/-- Number of label-dictionary writes on a trace. -/
def writeCount (tr : List IterEvent) : Nat :=
  (tr.filter IterEvent.isWrite).length

/-- The results yielded along a trace, in order. -/
def yieldsOf (tr : List IterEvent) : List IterationResult :=
  tr.filterMap (fun e =>
    match e with
    | .yielded r => some r
    | _ => none)

/-- Success of an Except-valued step. -/
def exOk : Except IterErr IterationResult → Bool
  | .ok _ => true
  | .error _ => false

/-- The label dictionary is persisted exactly once, by the final event of the
trace, and no proper prefix of the trace contains a write: so a consumer that
drains the sequence observes exactly one write of the given dictionary, and a
consumer that abandons the sequence at any earlier point observes none. -/
def drainedOnceAtEnd (tr : List IterEvent) (d : List (String × Nat)) : Prop :=
  writeCount tr = 1 ∧ tr.getLast? = some (.wrote d) ∧
    ∀ k, k < tr.length → writeCount (tr.take k) = 0

/-- Readability test of the image referenced by a meta record of the
image-list adapter: false both for an unreadable image and for a record whose
path key is missing. -/
def ImageListAdapter.imgOk (st : ImageListAdapter) (env : Env) (m : MetaRecord) : Bool :=
  match m.path with
  | none => false
  | some p => (env.resizeByShortEdge (joinPath st.root_folder p) st.img_size).isSome

/-- The result the image-list adapter yields for a readable record: the meta
with the path popped, and the single resized image. -/
def ImageListAdapter.res (st : ImageListAdapter) (env : Env) (m : MetaRecord) :
    IterationResult :=
  { meta := { m with path := none },
    frames := [(env.resizeByShortEdge (joinPath st.root_folder (m.path.getD "")) st.img_size).getD ""],
    id := m.id }

/-- The result the CSV/JPEG adapter yields for a record when every frame
image of its folder is readable. -/
def Custom20BNCsvJpegAdapter.res (st : Custom20BNCsvJpegAdapter) (env : Env)
    (m : MetaRecord) : IterationResult :=
  { meta := m,
    frames := (env.imagesInFolder (joinPath st.folder m.id)).map
      (fun p => (env.resizeByShortEdge p st.frame_size).getD ""),
    id := m.id }

/-- The result the JSON/video adapter yields for a record when its video
resolves and every burst frame is readable. -/
def Custom20BNJsonVideoAdapter.res (st : Custom20BNJsonVideoAdapter) (env : Env)
    (m : MetaRecord) : IterationResult :=
  { meta := m,
    frames := (env.burstFrames ((env.videoPath (joinPath st.folder m.id)).getD "")
        st.frame_rate).map (fun p => (env.resizeByShortEdge p st.frame_size).getD ""),
    id := m.id }

/-- The result the image-folder adapter yields for a record whose image is
readable. -/
def ImageFolderAdapter.res (st : ImageFolderAdapter) (env : Env) (m : MetaRecord) :
    IterationResult :=
  { meta := m,
    frames := [(env.resizeByShortEdge (joinPath (joinPath st.folder (m.path.getD "")) m.id)
        st.img_size).getD ""],
    id := m.id }

/-! Concrete inputs used to evaluate the model on closed instances. -/

/-- Environment in which every image is readable (the resized frame is named
by its path), every video folder resolves, and videos burst to no frames. -/
def allOkEnv : Env :=
  { resizeByShortEdge := fun p _ => some p,
    imagesInFolder := fun _ => [],
    videoPath := fun p => some p,
    burstFrames := fun _ _ => [] }

/-- Environment in which no image is readable and no video resolves. -/
def noImagesEnv : Env :=
  { resizeByShortEdge := fun _ _ => none,
    imagesInFolder := fun _ => [],
    videoPath := fun _ => none,
    burstFrames := fun _ _ => [] }

/-- Environment in which exactly one image, imgs/miss.jpg, is missing. -/
def mostlyOkEnv : Env :=
  { resizeByShortEdge := fun p _ => if p = "imgs/miss.jpg" then none else some p,
    imagesInFolder := fun _ => [],
    videoPath := fun p => some p,
    burstFrames := fun _ _ => [] }

/-- Environment in which every record folder lists one frame image that can
never be resized. -/
def failingFramesEnv : Env :=
  { resizeByShortEdge := fun _ _ => none,
    imagesInFolder := fun _ => ["vids/1/f1.jpg"],
    videoPath := fun _ => none,
    burstFrames := fun _ _ => [] }

/-- A two-record image-list adapter state as built from a list file naming
imgs/miss.jpg and imgs/a.jpg under label x, with an empty root folder. -/
def demoImageListAdapter : ImageListAdapter :=
  { data := [{ id := "miss.jpg", label := "x", path := some "imgs/miss.jpg" },
             { id := "a.jpg", label := "x", path := some "imgs/a.jpg" }],
    label2idx := [("x", 0)],
    all_meta := [{ id := "miss.jpg", label := "x", idx := 0, path := some "imgs/miss.jpg" },
                 { id := "a.jpg", label := "x", idx := 0, path := some "imgs/a.jpg" }],
    root_folder := "", shuffle := false, img_size := -1 }

/-- A three-record CSV/JPEG adapter state matching the manifest of the
specification example, unshuffled. -/
def demoCsvAdapter : Custom20BNCsvJpegAdapter :=
  { data := [{ id := "1", label := "cat" }, { id := "2", label := "dog" },
             { id := "3", label := "cat" }],
    labels2idx := [("cat", 0), ("dog", 1)],
    all_meta := [{ id := "1", label := "cat", idx := 0 },
                 { id := "2", label := "dog", idx := 1 },
                 { id := "3", label := "cat", idx := 0 }],
    folder := "vids", shuffle := false, frame_size := -1 }

/-- A one-record image-folder adapter state over the tree r/a. -/
def demoImageFolderAdapter : ImageFolderAdapter :=
  { data := [{ id := "x.jpg", label := "a", path := some "r/a" }],
    label2idx := [("a", 0)],
    all_meta := [{ id := "x.jpg", label := "a", idx := 0, path := some "r/a" }],
    folder := "", shuffle := false, img_size := -1 }

/-- A JSON/video adapter state over an empty manifest. -/
def emptyJsonAdapter : Custom20BNJsonVideoAdapter :=
  { data := [], labels2idx := [], all_meta := [], folder := "",
    shuffle := false, frame_size := -1, frame_rate := 8 }

/-- A two-record JSON/video adapter state over videos v1 and v2 of label x. -/
def demoJsonAdapter : Custom20BNJsonVideoAdapter :=
  { data := [{ id := "v1", label := "x" }, { id := "v2", label := "x" }],
    labels2idx := [("x", 0)],
    all_meta := [{ id := "v1", label := "x", idx := 0 },
                 { id := "v2", label := "x", idx := 0 }],
    folder := "vids", shuffle := false, frame_size := -1, frame_rate := 8 }

/-- Globbing over a filesystem holding exactly r/a/x.jpg and r/a/y.png. -/
def demoGlob (pattern : String) : List String :=
  if pattern = "r/**/*.jpg" then ["r/a/x.jpg"]
  else if pattern = "r/**/*.png" then ["r/a/y.png"]
  else []

/-! Order facts about the Python string comparison. -/

theorem charListLe_total : ∀ x y : List Char, charListLe x y = true ∨ charListLe y x = true
  | [], _ => Or.inl rfl
  | _ :: _, [] => Or.inr rfl
  | a :: as, b :: bs => by
    by_cases h : a.toNat = b.toNat
    · rcases charListLe_total as bs with h2 | h2
      · exact Or.inl (by simp [charListLe, h, h2])
      · exact Or.inr (by simp [charListLe, h.symm, h2])
    · rcases Nat.lt_or_ge a.toNat b.toNat with hlt | hge
      · exact Or.inl (by simp [charListLe, h, hlt])
      · have hlt : b.toNat < a.toNat := Nat.lt_of_le_of_ne hge (fun hc => h hc.symm)
        have hba : ¬ b.toNat = a.toNat := by omega
        exact Or.inr (by simp [charListLe, hba, hlt])

theorem charListLe_trans : ∀ x y z : List Char,
    charListLe x y = true → charListLe y z = true → charListLe x z = true
  | [], _, _, _, _ => rfl
  | _ :: _, [], _, hxy, _ => by simp [charListLe] at hxy
  | _ :: _, _ :: _, [], _, hyz => by simp [charListLe] at hyz
  | a :: as, b :: bs, c :: cs, hxy, hyz => by
    by_cases hab : a.toNat = b.toNat <;> by_cases hbc : b.toNat = c.toNat
    · simp only [charListLe, if_pos hab] at hxy
      simp only [charListLe, if_pos hbc] at hyz
      simp [charListLe, hab.trans hbc, charListLe_trans as bs cs hxy hyz]
    · simp only [charListLe, if_pos hab] at hxy
      simp only [charListLe, if_neg hbc, decide_eq_true_eq] at hyz
      have hac : ¬ a.toNat = c.toNat := by omega
      simp [charListLe, hac]
      omega
    · simp only [charListLe, if_neg hab, decide_eq_true_eq] at hxy
      simp only [charListLe, if_pos hbc] at hyz
      have hac : ¬ a.toNat = c.toNat := by omega
      simp [charListLe, hac]
      omega
    · simp only [charListLe, if_neg hab, decide_eq_true_eq] at hxy
      simp only [charListLe, if_neg hbc, decide_eq_true_eq] at hyz
      have hac : ¬ a.toNat = c.toNat := by omega
      simp [charListLe, hac]
      omega

theorem char_eq_of_toNat_eq {a b : Char} (h : a.toNat = b.toNat) : a = b :=
  Char.ext (UInt32.ext h)

theorem charListLe_antisymm : ∀ x y : List Char,
    charListLe x y = true → charListLe y x = true → x = y
  | [], [], _, _ => rfl
  | [], _ :: _, _, hyx => by simp [charListLe] at hyx
  | _ :: _, [], hxy, _ => by simp [charListLe] at hxy
  | a :: as, b :: bs, hxy, hyx => by
    by_cases hab : a.toNat = b.toNat
    · simp only [charListLe, if_pos hab] at hxy
      simp only [charListLe, if_pos (hab.symm)] at hyx
      rw [char_eq_of_toNat_eq hab, charListLe_antisymm as bs hxy hyx]
    · have hba : ¬ b.toNat = a.toNat := fun hc => hab hc.symm
      simp only [charListLe, if_neg hab, decide_eq_true_eq] at hxy
      simp only [charListLe, if_neg hba, decide_eq_true_eq] at hyx
      omega

theorem string_eq_of_data_eq : ∀ {a b : String}, a.data = b.data → a = b
  | ⟨_⟩, ⟨_⟩, h => congrArg String.mk h

/-- Sorting with the Python string order is a function of the multiset of
inputs: two permuted lists sort to the same list. -/
theorem insertionSort_eq_of_perm (l₁ l₂ : List String) (h : List.Perm l₁ l₂) :
    List.insertionSort pyStrLe l₁ = List.insertionSort pyStrLe l₂ := by
  haveI : IsTotal String pyStrLe := ⟨fun a b => charListLe_total a.data b.data⟩
  haveI : IsTrans String pyStrLe := ⟨fun a b c => charListLe_trans a.data b.data c.data⟩
  haveI : IsAntisymm String pyStrLe :=
    ⟨fun a b h1 h2 => string_eq_of_data_eq (charListLe_antisymm a.data b.data h1 h2)⟩
  exact List.eq_of_perm_of_sorted
    ((List.perm_insertionSort pyStrLe l₁).trans (h.trans (List.perm_insertionSort pyStrLe l₂).symm))
    (List.sorted_insertionSort pyStrLe l₁)
    (List.sorted_insertionSort pyStrLe l₂)

/-- C1: every adapter builds its label index by the one reference definition:
the verbatim copies in ImageListAdapter and ImageFolderAdapter agree with the
mixin, the assigned indices are exactly the contiguous range 0..n-1 for n
distinct labels, and reordering the record list leaves the mapping unchanged. -/
theorem create_label2idx_dict_deterministic (label_of : RawRecord → String)
    (d₁ d₂ : List RawRecord) (h : List.Perm d₁ d₂) :
    Custom20BNAdapterMixin.create_label2idx_dict label_of d₁
      = Custom20BNAdapterMixin.create_label2idx_dict label_of d₂
    ∧ ImageListAdapter.create_label2idx_dict d₁
      = Custom20BNAdapterMixin.create_label2idx_dict (fun r => r.label) d₁
    ∧ ImageFolderAdapter.create_label2idx_dict d₁
      = Custom20BNAdapterMixin.create_label2idx_dict (fun r => r.label) d₁
    ∧ (Custom20BNAdapterMixin.create_label2idx_dict label_of d₁).map Prod.snd
      = List.range ((d₁.map label_of).dedup).length := by
  refine ⟨?_, rfl, rfl, ?_⟩
  · have hsort : List.insertionSort pyStrLe ((d₁.map label_of).dedup)
        = List.insertionSort pyStrLe ((d₂.map label_of).dedup) :=
      insertionSort_eq_of_perm _ _ ((h.map label_of).dedup)
    simp only [Custom20BNAdapterMixin.create_label2idx_dict, hsort]
  · have hlen : (List.insertionSort pyStrLe ((d₁.map label_of).dedup)).length
        = ((d₁.map label_of).dedup).length :=
      (List.perm_insertionSort pyStrLe _).length_eq
    simp only [Custom20BNAdapterMixin.create_label2idx_dict, List.map_map]
    rw [show ((fun p : String × Nat => p.snd) ∘ fun p : Nat × String => (p.2, p.1))
        = Prod.fst from rfl]
    rw [List.enum_map_fst, hlen]

/-- Witness for C1 at a concrete two-record manifest and its reversal. -/
theorem create_label2idx_dict_deterministic_witness :
    Custom20BNAdapterMixin.create_label2idx_dict (fun r => r.label)
        [{ id := "1", label := "dog" }, { id := "2", label := "cat" }]
      = Custom20BNAdapterMixin.create_label2idx_dict (fun r => r.label)
        [{ id := "2", label := "cat" }, { id := "1", label := "dog" }]
    ∧ (Custom20BNAdapterMixin.create_label2idx_dict (fun r => r.label)
        [{ id := "1", label := "dog" }, { id := "2", label := "cat" }]).map Prod.snd
      = List.range (((([{ id := "1", label := "dog" },
          { id := "2", label := "cat" }] : List RawRecord).map (fun r => r.label)).dedup)).length := by
  have h := create_label2idx_dict_deterministic (fun r => r.label)
    [{ id := "1", label := "dog" }, { id := "2", label := "cat" }]
    [{ id := "2", label := "cat" }, { id := "1", label := "dog" }]
    (by decide)
  exact ⟨h.1, h.2.2.2⟩

/-! Trace lemmas. -/

theorem writeCount_append (t₁ t₂ : List IterEvent) :
    writeCount (t₁ ++ t₂) = writeCount t₁ + writeCount t₂ := by
  simp [writeCount, List.filter_append]

theorem writeCount_cons_yielded (r : IterationResult) (tr : List IterEvent) :
    writeCount (IterEvent.yielded r :: tr) = writeCount tr := by
  simp [writeCount, List.filter_cons, IterEvent.isWrite]

theorem writeCount_map_yielded (rs : List IterationResult) :
    writeCount (rs.map IterEvent.yielded) = 0 := by
  induction rs with
  | nil => rfl
  | cons r rs ih => simpa [writeCount_cons_yielded] using ih

theorem yieldsOf_map_yielded (rs : List IterationResult) :
    yieldsOf (rs.map IterEvent.yielded) = rs := by
  induction rs with
  | nil => rfl
  | cons r rs ih => simp [yieldsOf, List.filterMap_cons] at ih ⊢; exact ih

theorem yieldsOf_shape (rs : List IterationResult) (d : List (String × Nat)) :
    yieldsOf (rs.map IterEvent.yielded ++ [IterEvent.wrote d]) = rs := by
  have h1 : yieldsOf [IterEvent.wrote d] = [] := rfl
  simp [yieldsOf, List.filterMap_append] at h1 ⊢
  simpa [yieldsOf] using yieldsOf_map_yielded rs

theorem take_yields_no_write (rs : List IterationResult) (d : List (String × Nat)) :
    ∀ k, k ≤ rs.length →
    writeCount ((rs.map IterEvent.yielded ++ [IterEvent.wrote d]).take k) = 0 := by
  induction rs with
  | nil =>
    intro k hk
    have : k = 0 := Nat.le_zero.mp hk
    subst this
    rfl
  | cons r rs ih =>
    intro k hk
    match k with
    | 0 => rfl
    | k + 1 =>
      have hk' : k ≤ rs.length := Nat.succ_le_succ_iff.mp hk
      simpa [List.take_succ_cons, writeCount_cons_yielded] using ih k hk'

theorem drained_of_shape (rs : List IterationResult) (d : List (String × Nat)) :
    drainedOnceAtEnd (rs.map IterEvent.yielded ++ [IterEvent.wrote d]) d := by
  refine ⟨?_, ?_, ?_⟩
  · rw [writeCount_append, writeCount_map_yielded]
    rfl
  · exact List.getLast?_concat _
  · intro k hk
    have hlen : (rs.map IterEvent.yielded ++ [IterEvent.wrote d]).length = rs.length + 1 := by
      simp
    rw [hlen] at hk
    exact take_yields_no_write rs d k (Nat.lt_succ_iff.mp hk)

theorem iterLoop_shape (step : MetaRecord → Except IterErr IterationResult)
    (d : List (String × Nat)) :
    ∀ ms : List MetaRecord, (∀ m ∈ ms, exOk (step m) = true) →
    ∃ rs : List IterationResult,
      iterLoop step d ms = rs.map IterEvent.yielded ++ [IterEvent.wrote d]
  | [], _ => ⟨[], rfl⟩
  | m :: ms, h => by
    cases hs : step m with
    | error e =>
      have := h m (List.mem_cons_self m ms)
      rw [hs] at this
      exact absurd this (by simp [exOk])
    | ok r =>
      obtain ⟨rs, hrs⟩ :=
        iterLoop_shape step d ms (fun x hx => h x (List.mem_cons_of_mem _ hx))
      exact ⟨r :: rs, by simp [iterLoop, hs, hrs]⟩

theorem iterLoop_map (step : MetaRecord → Except IterErr IterationResult)
    (d : List (String × Nat)) (f : MetaRecord → IterationResult) :
    ∀ ms : List MetaRecord, (∀ m ∈ ms, step m = .ok (f m)) →
    iterLoop step d ms = (ms.map f).map IterEvent.yielded ++ [IterEvent.wrote d]
  | [], _ => rfl
  | m :: ms, h => by
    have h0 := h m (List.mem_cons_self m ms)
    have ih := iterLoop_map step d f ms (fun x hx => h x (List.mem_cons_of_mem _ hx))
    simp [iterLoop, h0, ih]

theorem iterLoop_fail (step : MetaRecord → Except IterErr IterationResult)
    (d : List (String × Nat)) :
    ∀ ms : List MetaRecord, (∃ m ∈ ms, exOk (step m) = false) →
    writeCount (iterLoop step d ms) = 0
      ∧ ∃ e ∈ iterLoop step d ms, IterEvent.isRaised e = true
  | [], h => by
    obtain ⟨m, hm, _⟩ := h
    exact absurd hm (List.not_mem_nil m)
  | m :: ms, h => by
    cases hs : step m with
    | error e =>
      refine ⟨by simp [iterLoop, hs, writeCount, List.filter, IterEvent.isWrite], ?_⟩
      exact ⟨.raised e, by simp [iterLoop, hs], rfl⟩
    | ok r =>
      obtain ⟨m', hm', hfail⟩ := h
      have hm'' : m' ∈ ms := by
        rcases List.mem_cons.mp hm' with heq | hmem
        · subst heq
          rw [hs] at hfail
          simp [exOk] at hfail
        · exact hmem
      obtain ⟨ihw, e, he, hre⟩ := iterLoop_fail step d ms ⟨m', hm'', hfail⟩
      refine ⟨?_, ⟨e, ?_, hre⟩⟩
      · simp [iterLoop, hs, writeCount_cons_yielded, ihw]
      · simp [iterLoop, hs]
        exact Or.inr he

theorem resize_images_ok (env : Env) (s : Int)
    (h : ∀ p (z : Int), (env.resizeByShortEdge p z).isSome = true) :
    ∀ ps : List String,
    resize_images env s ps = .ok (ps.map (fun p => (env.resizeByShortEdge p s).getD ""))
  | [] => rfl
  | p :: ps => by
    obtain ⟨f, hf⟩ : ∃ f, env.resizeByShortEdge p s = some f :=
      Option.isSome_iff_exists.mp (h p s)
    simp [resize_images, hf, resize_images_ok env s h ps, Except.map]

theorem csv_step_ok (st : Custom20BNCsvJpegAdapter) (env : Env)
    (h : ∀ p (z : Int), (env.resizeByShortEdge p z).isSome = true) (m : MetaRecord) :
    Custom20BNCsvJpegAdapter.step st env m = .ok (Custom20BNCsvJpegAdapter.res st env m) := by
  simp [Custom20BNCsvJpegAdapter.step, Custom20BNCsvJpegAdapter.res,
    resize_images_ok env st.frame_size h]

theorem json_step_ok (st : Custom20BNJsonVideoAdapter) (env : Env)
    (hr : ∀ p (z : Int), (env.resizeByShortEdge p z).isSome = true)
    (hv : ∀ f, (env.videoPath f).isSome = true) (m : MetaRecord) :
    Custom20BNJsonVideoAdapter.step st env m
      = .ok (Custom20BNJsonVideoAdapter.res st env m) := by
  obtain ⟨vp, hvp⟩ : ∃ vp, env.videoPath (joinPath st.folder m.id) = some vp :=
    Option.isSome_iff_exists.mp (hv _)
  simp [Custom20BNJsonVideoAdapter.step, hvp,
    resize_images_ok env st.frame_size hr, Custom20BNJsonVideoAdapter.res]

theorem folder_step_ok (st : ImageFolderAdapter) (env : Env)
    (hr : ∀ p (z : Int), (env.resizeByShortEdge p z).isSome = true)
    (m : MetaRecord) (hp : m.path.isSome = true) :
    ImageFolderAdapter.step st env m = .ok (ImageFolderAdapter.res st env m) := by
  obtain ⟨p, hps⟩ : ∃ p, m.path = some p := Option.isSome_iff_exists.mp hp
  obtain ⟨img, himg⟩ : ∃ img,
      env.resizeByShortEdge (joinPath (joinPath st.folder p) m.id) st.img_size = some img :=
    Option.isSome_iff_exists.mp (hr _ _)
  simp [ImageFolderAdapter.step, hps, himg, ImageFolderAdapter.res]

theorem imgList_iterLoop_events (st : ImageListAdapter) (env : Env) :
    ∀ ms : List MetaRecord, (∀ m ∈ ms, m.path.isSome = true) →
    (ImageListAdapter.iterLoop st env ms).1
      = ((ms.filter (ImageListAdapter.imgOk st env)).map
          (ImageListAdapter.res st env)).map IterEvent.yielded
        ++ [IterEvent.wrote st.label2idx]
    ∧ (ImageListAdapter.iterLoop st env ms).2
      = ms.map (fun m =>
          if ImageListAdapter.imgOk st env m then { m with path := none } else m)
  | [], _ => ⟨rfl, rfl⟩
  | m :: ms, h => by
    obtain ⟨p, hp⟩ : ∃ p, m.path = some p :=
      Option.isSome_iff_exists.mp (h m (List.mem_cons_self m ms))
    have ih := imgList_iterLoop_events st env ms (fun x hx => h x (List.mem_cons_of_mem _ hx))
    cases hr : env.resizeByShortEdge (joinPath st.root_folder p) st.img_size with
    | none =>
      have hok : ImageListAdapter.imgOk st env m = false := by
        simp [ImageListAdapter.imgOk, hp, hr]
      exact ⟨by simp [ImageListAdapter.iterLoop, hp, hr, hok, ih.1, List.filter_cons],
             by simp [ImageListAdapter.iterLoop, hp, hr, hok, ih.2]⟩
    | some img =>
      have hok : ImageListAdapter.imgOk st env m = true := by
        simp [ImageListAdapter.imgOk, hp, hr]
      have hres : ImageListAdapter.res st env m
          = { meta := { m with path := none }, frames := [img], id := m.id } := by
        simp [ImageListAdapter.res, hp, hr]
      exact ⟨by simp [ImageListAdapter.iterLoop, hp, hr, hok, ih.1, hres, List.filter_cons],
             by simp [ImageListAdapter.iterLoop, hp, hr, hok, ih.2]⟩

/-- C4: for every adapter, once the sequence produced by iter_data is fully
drained the label2idx persistence fires exactly once, as the final trace
event, including over an empty record window; no proper prefix of the trace
(an abandoned iteration) contains a write; and the written content is
exactly the in-memory label dictionary of the adapter. -/
theorem label2idx_written_exactly_on_drain :
    (∀ (st : Custom20BNJsonVideoAdapter) (env : Env) (a b : Nat),
      (∀ m ∈ (st.all_meta.drop a).take (b - a),
        exOk (Custom20BNJsonVideoAdapter.step st env m) = true) →
      drainedOnceAtEnd (Custom20BNJsonVideoAdapter.iter_data st env a b) st.labels2idx)
    ∧ (∀ (st : Custom20BNCsvJpegAdapter) (env : Env) (a b : Nat),
      (∀ m ∈ (st.all_meta.drop a).take (b - a),
        exOk (Custom20BNCsvJpegAdapter.step st env m) = true) →
      drainedOnceAtEnd (Custom20BNCsvJpegAdapter.iter_data st env a b) st.labels2idx)
    ∧ (∀ (st : ImageFolderAdapter) (env : Env) (a b : Nat),
      (∀ m ∈ (st.all_meta.drop a).take (b - a),
        exOk (ImageFolderAdapter.step st env m) = true) →
      drainedOnceAtEnd (ImageFolderAdapter.iter_data st env a b) st.label2idx)
    ∧ (∀ (st : ImageListAdapter) (env : Env) (a b : Nat),
      (∀ m ∈ (st.all_meta.drop a).take (b - a), m.path.isSome = true) →
      drainedOnceAtEnd (ImageListAdapter.iter_data st env a b).1 st.label2idx) := by
  refine ⟨?_, ?_, ?_, ?_⟩
  · intro st env a b h
    obtain ⟨rs, hrs⟩ := iterLoop_shape (Custom20BNJsonVideoAdapter.step st env) st.labels2idx _ h
    rw [Custom20BNJsonVideoAdapter.iter_data, hrs]
    exact drained_of_shape rs st.labels2idx
  · intro st env a b h
    obtain ⟨rs, hrs⟩ := iterLoop_shape (Custom20BNCsvJpegAdapter.step st env) st.labels2idx _ h
    rw [Custom20BNCsvJpegAdapter.iter_data, hrs]
    exact drained_of_shape rs st.labels2idx
  · intro st env a b h
    obtain ⟨rs, hrs⟩ := iterLoop_shape (ImageFolderAdapter.step st env) st.label2idx _ h
    rw [ImageFolderAdapter.iter_data, hrs]
    exact drained_of_shape rs st.label2idx
  · intro st env a b h
    have hev := (imgList_iterLoop_events st env _ h).1
    have : (ImageListAdapter.iter_data st env a b).1
        = (ImageListAdapter.iterLoop st env ((st.all_meta.drop a).take (b - a))).1 := rfl
    rw [this, hev]
    exact drained_of_shape _ st.label2idx

/-- Witness for C4: the empty JSON/video manifest still writes on drain, and
the two-record image-list adapter with one unreadable image writes exactly
once at the end of its trace. -/
theorem label2idx_written_exactly_on_drain_witness :
    drainedOnceAtEnd (Custom20BNJsonVideoAdapter.iter_data emptyJsonAdapter noImagesEnv 0 0)
      emptyJsonAdapter.labels2idx
    ∧ drainedOnceAtEnd (ImageListAdapter.iter_data demoImageListAdapter mostlyOkEnv 0 2).1
      demoImageListAdapter.label2idx :=
  ⟨label2idx_written_exactly_on_drain.1 emptyJsonAdapter noImagesEnv 0 0 (by decide),
   label2idx_written_exactly_on_drain.2.2.2 demoImageListAdapter mostlyOkEnv 0 2 (by decide)⟩

theorem length_filter_split {α : Type} (p : α → Bool) (l : List α) :
    (l.filter p).length + (l.filter (fun x => ! p x)).length = l.length := by
  induction l with
  | nil => rfl
  | cons x l ih =>
    cases hx : p x <;> simp [List.filter_cons, hx] <;> omega

/-- C5: on every freshly constructed adapter, iterating a half-open window
[a, b) with 0 le a le b le length yields exactly b - a results whose metas
are the records AllMeta a .. AllMeta (b-1) in order, equal to the same window
of the unsliced sequence (CSV/JPEG, JSON/video and image-folder variants);
the image-list variant yields the same window minus the records skipped by
its tolerated-error policy, in the same relative order. -/
theorem iter_data_slice_window :
    (∀ (st : Custom20BNCsvJpegAdapter) (env : Env) (a b : Nat),
      a ≤ b → b ≤ Custom20BNCsvJpegAdapter.len st →
      st.all_meta.length = st.data.length →
      (∀ p (z : Int), (env.resizeByShortEdge p z).isSome = true) →
      (yieldsOf (Custom20BNCsvJpegAdapter.iter_data st env a b)).length = b - a
      ∧ (yieldsOf (Custom20BNCsvJpegAdapter.iter_data st env a b)).map IterationResult.meta
          = (st.all_meta.drop a).take (b - a)
      ∧ yieldsOf (Custom20BNCsvJpegAdapter.iter_data st env a b)
          = ((yieldsOf (Custom20BNCsvJpegAdapter.iter_data st env 0
              (Custom20BNCsvJpegAdapter.len st))).drop a).take (b - a))
    ∧ (∀ (st : Custom20BNJsonVideoAdapter) (env : Env) (a b : Nat),
      a ≤ b → b ≤ Custom20BNJsonVideoAdapter.len st →
      st.all_meta.length = st.data.length →
      (∀ p (z : Int), (env.resizeByShortEdge p z).isSome = true) →
      (∀ f, (env.videoPath f).isSome = true) →
      (yieldsOf (Custom20BNJsonVideoAdapter.iter_data st env a b)).length = b - a
      ∧ (yieldsOf (Custom20BNJsonVideoAdapter.iter_data st env a b)).map IterationResult.meta
          = (st.all_meta.drop a).take (b - a)
      ∧ yieldsOf (Custom20BNJsonVideoAdapter.iter_data st env a b)
          = ((yieldsOf (Custom20BNJsonVideoAdapter.iter_data st env 0
              (Custom20BNJsonVideoAdapter.len st))).drop a).take (b - a))
    ∧ (∀ (st : ImageFolderAdapter) (env : Env) (a b : Nat),
      a ≤ b → b ≤ ImageFolderAdapter.len st →
      st.all_meta.length = st.data.length →
      (∀ p (z : Int), (env.resizeByShortEdge p z).isSome = true) →
      (∀ m ∈ st.all_meta, m.path.isSome = true) →
      (yieldsOf (ImageFolderAdapter.iter_data st env a b)).length = b - a
      ∧ (yieldsOf (ImageFolderAdapter.iter_data st env a b)).map IterationResult.meta
          = (st.all_meta.drop a).take (b - a)
      ∧ yieldsOf (ImageFolderAdapter.iter_data st env a b)
          = ((yieldsOf (ImageFolderAdapter.iter_data st env 0
              (ImageFolderAdapter.len st))).drop a).take (b - a))
    ∧ (∀ (st : ImageListAdapter) (env : Env) (a b : Nat),
      a ≤ b → b ≤ ImageListAdapter.len st →
      st.all_meta.length = st.data.length →
      (∀ m ∈ st.all_meta, m.path.isSome = true) →
      (yieldsOf (ImageListAdapter.iter_data st env a b).1).map IterationResult.meta
        = (((st.all_meta.drop a).take (b - a)).filter (ImageListAdapter.imgOk st env)).map
            (fun m => { m with path := none })
      ∧ (yieldsOf (ImageListAdapter.iter_data st env a b).1).length
          = (b - a) - (((st.all_meta.drop a).take (b - a)).filter
              (fun m => ! ImageListAdapter.imgOk st env m)).length) := by
  refine ⟨?_, ?_, ?_, ?_⟩
  · intro st env a b hab hb hfresh hok
    have hmem : b ≤ st.all_meta.length := by
      rw [hfresh]
      exact hb
    have hwl : ((st.all_meta.drop a).take (b - a)).length = b - a := by
      simp only [List.length_take, List.length_drop]
      omega
    have htr : Custom20BNCsvJpegAdapter.iter_data st env a b
        = (((st.all_meta.drop a).take (b - a)).map
            (Custom20BNCsvJpegAdapter.res st env)).map IterEvent.yielded
          ++ [IterEvent.wrote st.labels2idx] := by
      simp only [Custom20BNCsvJpegAdapter.iter_data]
      exact iterLoop_map _ _ _ _ (fun m _ => csv_step_ok st env hok m)
    have hys : yieldsOf (Custom20BNCsvJpegAdapter.iter_data st env a b)
        = ((st.all_meta.drop a).take (b - a)).map (Custom20BNCsvJpegAdapter.res st env) := by
      rw [htr, yieldsOf_shape]
    have htr0 : yieldsOf (Custom20BNCsvJpegAdapter.iter_data st env 0
        (Custom20BNCsvJpegAdapter.len st))
        = st.all_meta.map (Custom20BNCsvJpegAdapter.res st env) := by
      have h0 : (st.all_meta.drop 0).take (Custom20BNCsvJpegAdapter.len st - 0)
          = st.all_meta := by
        rw [List.drop_zero]
        exact List.take_of_length_le (by rw [hfresh]; simp [Custom20BNCsvJpegAdapter.len])
      have := iterLoop_map (Custom20BNCsvJpegAdapter.step st env) st.labels2idx
        (Custom20BNCsvJpegAdapter.res st env)
        ((st.all_meta.drop 0).take (Custom20BNCsvJpegAdapter.len st - 0))
        (fun m _ => csv_step_ok st env hok m)
      rw [Custom20BNCsvJpegAdapter.iter_data, this, yieldsOf_shape, h0]
    refine ⟨?_, ?_, ?_⟩
    · rw [hys, List.length_map, hwl]
    · rw [hys, List.map_map]
      exact List.map_id' _
    · rw [hys, htr0, List.map_take, List.map_drop]
  · intro st env a b hab hb hfresh hrok hvok
    have hmem : b ≤ st.all_meta.length := by
      rw [hfresh]
      exact hb
    have hwl : ((st.all_meta.drop a).take (b - a)).length = b - a := by
      simp only [List.length_take, List.length_drop]
      omega
    have htr : Custom20BNJsonVideoAdapter.iter_data st env a b
        = (((st.all_meta.drop a).take (b - a)).map
            (Custom20BNJsonVideoAdapter.res st env)).map IterEvent.yielded
          ++ [IterEvent.wrote st.labels2idx] := by
      simp only [Custom20BNJsonVideoAdapter.iter_data]
      exact iterLoop_map _ _ _ _ (fun m _ => json_step_ok st env hrok hvok m)
    have hys : yieldsOf (Custom20BNJsonVideoAdapter.iter_data st env a b)
        = ((st.all_meta.drop a).take (b - a)).map (Custom20BNJsonVideoAdapter.res st env) := by
      rw [htr, yieldsOf_shape]
    have htr0 : yieldsOf (Custom20BNJsonVideoAdapter.iter_data st env 0
        (Custom20BNJsonVideoAdapter.len st))
        = st.all_meta.map (Custom20BNJsonVideoAdapter.res st env) := by
      have h0 : (st.all_meta.drop 0).take (Custom20BNJsonVideoAdapter.len st - 0)
          = st.all_meta := by
        rw [List.drop_zero]
        exact List.take_of_length_le (by rw [hfresh]; simp [Custom20BNJsonVideoAdapter.len])
      have := iterLoop_map (Custom20BNJsonVideoAdapter.step st env) st.labels2idx
        (Custom20BNJsonVideoAdapter.res st env)
        ((st.all_meta.drop 0).take (Custom20BNJsonVideoAdapter.len st - 0))
        (fun m _ => json_step_ok st env hrok hvok m)
      rw [Custom20BNJsonVideoAdapter.iter_data, this, yieldsOf_shape, h0]
    refine ⟨?_, ?_, ?_⟩
    · rw [hys, List.length_map, hwl]
    · rw [hys, List.map_map]
      exact List.map_id' _
    · rw [hys, htr0, List.map_take, List.map_drop]
  · intro st env a b hab hb hfresh hrok hpaths
    have hmem : b ≤ st.all_meta.length := by
      rw [hfresh]
      exact hb
    have hwl : ((st.all_meta.drop a).take (b - a)).length = b - a := by
      simp only [List.length_take, List.length_drop]
      omega
    have hstep : ∀ m ∈ (st.all_meta.drop a).take (b - a),
        ImageFolderAdapter.step st env m = .ok (ImageFolderAdapter.res st env m) :=
      fun m hm => folder_step_ok st env hrok m
        (hpaths m (List.mem_of_mem_drop (List.mem_of_mem_take hm)))
    have htr : ImageFolderAdapter.iter_data st env a b
        = (((st.all_meta.drop a).take (b - a)).map
            (ImageFolderAdapter.res st env)).map IterEvent.yielded
          ++ [IterEvent.wrote st.label2idx] := by
      simp only [ImageFolderAdapter.iter_data]
      exact iterLoop_map _ _ _ _ hstep
    have hys : yieldsOf (ImageFolderAdapter.iter_data st env a b)
        = ((st.all_meta.drop a).take (b - a)).map (ImageFolderAdapter.res st env) := by
      rw [htr, yieldsOf_shape]
    have htr0 : yieldsOf (ImageFolderAdapter.iter_data st env 0 (ImageFolderAdapter.len st))
        = st.all_meta.map (ImageFolderAdapter.res st env) := by
      have h0 : (st.all_meta.drop 0).take (ImageFolderAdapter.len st - 0)
          = st.all_meta := by
        rw [List.drop_zero]
        exact List.take_of_length_le (by rw [hfresh]; simp [ImageFolderAdapter.len])
      have hstep0 : ∀ m ∈ (st.all_meta.drop 0).take (ImageFolderAdapter.len st - 0),
          ImageFolderAdapter.step st env m = .ok (ImageFolderAdapter.res st env m) :=
        fun m hm => folder_step_ok st env hrok m
          (hpaths m (List.mem_of_mem_drop (List.mem_of_mem_take hm)))
      have := iterLoop_map (ImageFolderAdapter.step st env) st.label2idx
        (ImageFolderAdapter.res st env)
        ((st.all_meta.drop 0).take (ImageFolderAdapter.len st - 0)) hstep0
      rw [ImageFolderAdapter.iter_data, this, yieldsOf_shape, h0]
    refine ⟨?_, ?_, ?_⟩
    · rw [hys, List.length_map, hwl]
    · rw [hys, List.map_map]
      exact List.map_id' _
    · rw [hys, htr0, List.map_take, List.map_drop]
  · intro st env a b hab hb hfresh hpaths
    have hmem : b ≤ st.all_meta.length := by
      rw [hfresh]
      exact hb
    have hwl : ((st.all_meta.drop a).take (b - a)).length = b - a := by
      simp only [List.length_take, List.length_drop]
      omega
    have hwp : ∀ m ∈ (st.all_meta.drop a).take (b - a), m.path.isSome = true :=
      fun m hm => hpaths m (List.mem_of_mem_drop (List.mem_of_mem_take hm))
    have hev := (imgList_iterLoop_events st env _ hwp).1
    have hys : yieldsOf (ImageListAdapter.iter_data st env a b).1
        = (((st.all_meta.drop a).take (b - a)).filter (ImageListAdapter.imgOk st env)).map
            (ImageListAdapter.res st env) := by
      have : (ImageListAdapter.iter_data st env a b).1
          = (ImageListAdapter.iterLoop st env ((st.all_meta.drop a).take (b - a))).1 := rfl
      rw [this, hev, yieldsOf_shape]
    constructor
    · rw [hys, List.map_map]
      apply List.map_congr_left
      intro m _
      rfl
    · rw [hys, List.length_map]
      have hsplit := length_filter_split (ImageListAdapter.imgOk st env)
        ((st.all_meta.drop a).take (b - a))
      omega

/-- Witness for C5 at the three-record CSV adapter with window [1, 3), the
two-record JSON/video adapter with window [1, 2), the one-record image-folder
adapter with window [0, 1), and the two-record image-list adapter (one
unreadable image) with window [0, 2). -/
theorem iter_data_slice_window_witness :
    ((yieldsOf (Custom20BNCsvJpegAdapter.iter_data demoCsvAdapter allOkEnv 1 3)).length = 3 - 1
      ∧ (yieldsOf (Custom20BNCsvJpegAdapter.iter_data demoCsvAdapter allOkEnv 1 3)).map
          IterationResult.meta = (demoCsvAdapter.all_meta.drop 1).take (3 - 1)
      ∧ yieldsOf (Custom20BNCsvJpegAdapter.iter_data demoCsvAdapter allOkEnv 1 3)
          = ((yieldsOf (Custom20BNCsvJpegAdapter.iter_data demoCsvAdapter allOkEnv 0
              (Custom20BNCsvJpegAdapter.len demoCsvAdapter))).drop 1).take (3 - 1))
    ∧ ((yieldsOf (Custom20BNJsonVideoAdapter.iter_data demoJsonAdapter allOkEnv 1 2)).length
          = 2 - 1
      ∧ (yieldsOf (Custom20BNJsonVideoAdapter.iter_data demoJsonAdapter allOkEnv 1 2)).map
          IterationResult.meta = (demoJsonAdapter.all_meta.drop 1).take (2 - 1)
      ∧ yieldsOf (Custom20BNJsonVideoAdapter.iter_data demoJsonAdapter allOkEnv 1 2)
          = ((yieldsOf (Custom20BNJsonVideoAdapter.iter_data demoJsonAdapter allOkEnv 0
              (Custom20BNJsonVideoAdapter.len demoJsonAdapter))).drop 1).take (2 - 1))
    ∧ ((yieldsOf (ImageFolderAdapter.iter_data demoImageFolderAdapter allOkEnv 0 1)).length
          = 1 - 0
      ∧ (yieldsOf (ImageFolderAdapter.iter_data demoImageFolderAdapter allOkEnv 0 1)).map
          IterationResult.meta = (demoImageFolderAdapter.all_meta.drop 0).take (1 - 0)
      ∧ yieldsOf (ImageFolderAdapter.iter_data demoImageFolderAdapter allOkEnv 0 1)
          = ((yieldsOf (ImageFolderAdapter.iter_data demoImageFolderAdapter allOkEnv 0
              (ImageFolderAdapter.len demoImageFolderAdapter))).drop 0).take (1 - 0))
    ∧ ((yieldsOf (ImageListAdapter.iter_data demoImageListAdapter mostlyOkEnv 0 2).1).map
          IterationResult.meta
        = (((demoImageListAdapter.all_meta.drop 0).take (2 - 0)).filter
            (ImageListAdapter.imgOk demoImageListAdapter mostlyOkEnv)).map
              (fun m => { m with path := none })
      ∧ (yieldsOf (ImageListAdapter.iter_data demoImageListAdapter mostlyOkEnv 0 2).1).length
          = (2 - 0) - (((demoImageListAdapter.all_meta.drop 0).take (2 - 0)).filter
              (fun m => ! ImageListAdapter.imgOk demoImageListAdapter mostlyOkEnv m)).length) :=
  ⟨iter_data_slice_window.1 demoCsvAdapter allOkEnv 1 3 (by decide) (by decide) (by decide)
      (fun _ _ => rfl),
   iter_data_slice_window.2.1 demoJsonAdapter allOkEnv 1 2 (by decide) (by decide) (by decide)
      (fun _ _ => rfl) (fun _ => rfl),
   iter_data_slice_window.2.2.1 demoImageFolderAdapter allOkEnv 0 1 (by decide) (by decide)
      (by decide) (fun _ _ => rfl) (by decide),
   iter_data_slice_window.2.2.2 demoImageListAdapter mostlyOkEnv 0 2 (by decide) (by decide)
      (by decide) (by decide)⟩

/-- C6: the length of every adapter (CSV/JPEG, image-list, JSON/video and
image-folder) equals the number of RawRecords parsed from the manifest at
construction, whatever reordering the shuffle applies, and for the
image-list adapter the length survives any iter_data call on any window even
though records may be skipped and the stored meta list replaced. -/
theorem length_manifest_based :
    (∀ (content folder : String) (shuffle : Bool)
        (shuffleFn : List MetaRecord → List MetaRecord) (frame_size : Int)
        (d : List RawRecord) (st : Custom20BNCsvJpegAdapter),
      Custom20BNCsvJpegAdapter.read_csv content = some d →
      Custom20BNCsvJpegAdapter.init content folder shuffle shuffleFn frame_size = some st →
      Custom20BNCsvJpegAdapter.len st = d.length)
    ∧ (∀ (content root_folder : String) (shuffle : Bool)
        (shuffleFn : List MetaRecord → List MetaRecord) (img_size : Int)
        (d : List RawRecord) (st : ImageListAdapter),
      ImageListAdapter.parse_paths content = some d →
      ImageListAdapter.init content root_folder shuffle shuffleFn img_size = some st →
      ImageListAdapter.len st = d.length)
    ∧ (∀ (json_file folder : String) (shuffle : Bool)
        (shuffleFn : List MetaRecord → List MetaRecord)
        (read_json read_gz_json : String → List RawRecord) (frame_size frame_rate : Int)
        (st : Custom20BNJsonVideoAdapter),
      Custom20BNJsonVideoAdapter.init json_file folder shuffle shuffleFn
        read_json read_gz_json frame_size frame_rate = .ok st →
      (pyEndsWith json_file ".json.gz" = true →
        Custom20BNJsonVideoAdapter.len st = (read_gz_json json_file).length)
      ∧ (pyEndsWith json_file ".json.gz" = false → pyEndsWith json_file ".json" = true →
        Custom20BNJsonVideoAdapter.len st = (read_json json_file).length))
    ∧ (∀ (glob : String → List String) (folder : String) (file_extensions : List String)
        (shuffle : Bool) (shuffleFn : List MetaRecord → List MetaRecord) (img_size : Int),
      ImageFolderAdapter.len
          (ImageFolderAdapter.init glob folder file_extensions shuffle shuffleFn img_size)
        = (ImageFolderAdapter.parse_folder glob file_extensions folder).length)
    ∧ (∀ (st : ImageListAdapter) (env : Env) (a b : Nat),
      ImageListAdapter.len (ImageListAdapter.iter_data st env a b).2
        = ImageListAdapter.len st) := by
  refine ⟨?_, ?_, ?_, ?_, ?_⟩
  · intro content folder shuffle shuffleFn frame_size d st hread hmk
    simp only [Custom20BNCsvJpegAdapter.init, hread, Option.map_some', Option.some.injEq] at hmk
    rw [← hmk]
    rfl
  · intro content root_folder shuffle shuffleFn img_size d st hread hmk
    simp only [ImageListAdapter.init, hread, Option.map_some', Option.some.injEq] at hmk
    rw [← hmk]
    rfl
  · intro json_file folder shuffle shuffleFn read_json read_gz_json frame_size frame_rate st hmk
    constructor
    · intro hgz
      simp only [Custom20BNJsonVideoAdapter.init, hgz, if_true, Except.ok.injEq] at hmk
      rw [← hmk]
      simp [Custom20BNJsonVideoAdapter.build, Custom20BNJsonVideoAdapter.len,
        Custom20BNJsonVideoAdapter.get_meta]
    · intro hgz hj
      simp only [Custom20BNJsonVideoAdapter.init, hgz, hj, Bool.false_eq_true, if_false,
        if_true, Except.ok.injEq] at hmk
      rw [← hmk]
      simp [Custom20BNJsonVideoAdapter.build, Custom20BNJsonVideoAdapter.len,
        Custom20BNJsonVideoAdapter.get_meta]
  · intro glob folder file_extensions shuffle shuffleFn img_size
    rfl
  · intro st env a b
    rfl

/-- C7: during iteration only the image-list adapter tolerates a missing
referenced image: it omits the record from the produced sequence and carries
on to the natural end of the loop, raising nothing; in the image-folder,
CSV/JPEG and JSON/video variants an acquisition failure for any record on the
walked window surfaces as a raised event and the iteration never reaches the
terminal write, aborting as a whole. -/
theorem image_not_found_tolerance :
    (∀ (st : ImageListAdapter) (env : Env) (ms : List MetaRecord),
      (∀ m ∈ ms, m.path.isSome = true) →
      (∀ e ∈ (ImageListAdapter.iterLoop st env ms).1, IterEvent.isRaised e = false)
      ∧ yieldsOf (ImageListAdapter.iterLoop st env ms).1
          = (ms.filter (ImageListAdapter.imgOk st env)).map (ImageListAdapter.res st env)
      ∧ writeCount (ImageListAdapter.iterLoop st env ms).1 = 1)
    ∧ (∀ (st : ImageFolderAdapter) (env : Env) (ms : List MetaRecord)
        (m : MetaRecord) (p : String),
      m ∈ ms → m.path = some p →
      env.resizeByShortEdge (joinPath (joinPath st.folder p) m.id) st.img_size = none →
      writeCount (iterLoop (ImageFolderAdapter.step st env) st.label2idx ms) = 0
      ∧ ∃ e ∈ iterLoop (ImageFolderAdapter.step st env) st.label2idx ms,
          IterEvent.isRaised e = true)
    ∧ (∀ (st : Custom20BNCsvJpegAdapter) (env : Env) (ms : List MetaRecord)
        (m : MetaRecord) (p : String),
      m ∈ ms →
      resize_images env st.frame_size (env.imagesInFolder (joinPath st.folder m.id))
        = .error p →
      writeCount (iterLoop (Custom20BNCsvJpegAdapter.step st env) st.labels2idx ms) = 0
      ∧ ∃ e ∈ iterLoop (Custom20BNCsvJpegAdapter.step st env) st.labels2idx ms,
          IterEvent.isRaised e = true)
    ∧ (∀ (st : Custom20BNJsonVideoAdapter) (env : Env) (ms : List MetaRecord)
        (m : MetaRecord),
      m ∈ ms → env.videoPath (joinPath st.folder m.id) = none →
      writeCount (iterLoop (Custom20BNJsonVideoAdapter.step st env) st.labels2idx ms) = 0
      ∧ ∃ e ∈ iterLoop (Custom20BNJsonVideoAdapter.step st env) st.labels2idx ms,
          IterEvent.isRaised e = true) := by
  refine ⟨?_, ?_, ?_, ?_⟩
  · intro st env ms h
    have hev := (imgList_iterLoop_events st env ms h).1
    refine ⟨?_, ?_, ?_⟩
    · intro e he
      rw [hev] at he
      rcases List.mem_append.mp he with hm | hm
      · obtain ⟨r, _, hr⟩ := List.mem_map.mp hm
        rw [← hr]
        rfl
      · rw [List.mem_singleton.mp hm]
        rfl
    · rw [hev, yieldsOf_shape]
    · rw [hev, writeCount_append, writeCount_map_yielded]
      rfl
  · intro st env ms m p hm hp hres
    have hstep : ImageFolderAdapter.step st env m
        = .error (.imageNotFound (joinPath (joinPath st.folder p) m.id)) := by
      simp [ImageFolderAdapter.step, hp, hres]
    exact iterLoop_fail _ _ ms ⟨m, hm, by simp [exOk, hstep]⟩
  · intro st env ms m p hm hres
    have hstep : Custom20BNCsvJpegAdapter.step st env m = .error (.imageNotFound p) := by
      simp [Custom20BNCsvJpegAdapter.step, hres]
    exact iterLoop_fail _ _ ms ⟨m, hm, by simp [exOk, hstep]⟩
  · intro st env ms m hm hvid
    have hstep : Custom20BNJsonVideoAdapter.step st env m
        = .error (.videoNotFound (joinPath st.folder m.id)) := by
      simp [Custom20BNJsonVideoAdapter.step, hvid]
    exact iterLoop_fail _ _ ms ⟨m, hm, by simp [exOk, hstep]⟩

/-- Witness for C7: the image-list adapter with one unreadable image raises
nothing and still writes, while the image-folder, CSV/JPEG and JSON/video
adapters abort without writing on one failed record. -/
theorem image_not_found_tolerance_witness :
    ((∀ e ∈ (ImageListAdapter.iterLoop demoImageListAdapter mostlyOkEnv
        demoImageListAdapter.all_meta).1, IterEvent.isRaised e = false)
      ∧ yieldsOf (ImageListAdapter.iterLoop demoImageListAdapter mostlyOkEnv
          demoImageListAdapter.all_meta).1
        = (demoImageListAdapter.all_meta.filter
            (ImageListAdapter.imgOk demoImageListAdapter mostlyOkEnv)).map
              (ImageListAdapter.res demoImageListAdapter mostlyOkEnv)
      ∧ writeCount (ImageListAdapter.iterLoop demoImageListAdapter mostlyOkEnv
          demoImageListAdapter.all_meta).1 = 1)
    ∧ (writeCount (iterLoop (ImageFolderAdapter.step demoImageFolderAdapter noImagesEnv)
        demoImageFolderAdapter.label2idx demoImageFolderAdapter.all_meta) = 0
      ∧ ∃ e ∈ iterLoop (ImageFolderAdapter.step demoImageFolderAdapter noImagesEnv)
          demoImageFolderAdapter.label2idx demoImageFolderAdapter.all_meta,
          IterEvent.isRaised e = true)
    ∧ (writeCount (iterLoop (Custom20BNCsvJpegAdapter.step demoCsvAdapter failingFramesEnv)
        demoCsvAdapter.labels2idx demoCsvAdapter.all_meta) = 0
      ∧ ∃ e ∈ iterLoop (Custom20BNCsvJpegAdapter.step demoCsvAdapter failingFramesEnv)
          demoCsvAdapter.labels2idx demoCsvAdapter.all_meta,
          IterEvent.isRaised e = true)
    ∧ (writeCount (iterLoop (Custom20BNJsonVideoAdapter.step emptyJsonAdapter noImagesEnv)
        emptyJsonAdapter.labels2idx [{ id := "v", label := "x", idx := 0 }]) = 0
      ∧ ∃ e ∈ iterLoop (Custom20BNJsonVideoAdapter.step emptyJsonAdapter noImagesEnv)
          emptyJsonAdapter.labels2idx [{ id := "v", label := "x", idx := 0 }],
          IterEvent.isRaised e = true) :=
  ⟨image_not_found_tolerance.1 demoImageListAdapter mostlyOkEnv
      demoImageListAdapter.all_meta (by decide),
   image_not_found_tolerance.2.1 demoImageFolderAdapter noImagesEnv
      demoImageFolderAdapter.all_meta { id := "x.jpg", label := "a", idx := 0, path := some "r/a" }
      "r/a" (by decide) (by decide) (by decide),
   image_not_found_tolerance.2.2.1 demoCsvAdapter failingFramesEnv demoCsvAdapter.all_meta
      { id := "1", label := "cat", idx := 0 } "vids/1/f1.jpg" (by decide) rfl,
   image_not_found_tolerance.2.2.2 emptyJsonAdapter noImagesEnv
      [{ id := "v", label := "x", idx := 0 }] { id := "v", label := "x", idx := 0 }
      (by decide) (by decide)⟩

/-- C8: construction of the JSON/video adapter dispatches on the manifest
file name: a name ending in .json.gz is read with the gzip JSON reader, a
name ending in .json (and not in .json.gz) with the plain JSON reader, and
any other name fails with the RuntimeError message before any adapter state
is produced. -/
theorem json_constructor_extension_dispatch
    (json_file folder : String) (shuffle : Bool)
    (shuffleFn : List MetaRecord → List MetaRecord)
    (read_json read_gz_json : String → List RawRecord) (frame_size frame_rate : Int) :
    (pyEndsWith json_file ".json.gz" = true →
      Custom20BNJsonVideoAdapter.init json_file folder shuffle shuffleFn
          read_json read_gz_json frame_size frame_rate
        = .ok (Custom20BNJsonVideoAdapter.build (read_gz_json json_file) folder
            shuffle shuffleFn frame_size frame_rate))
    ∧ (pyEndsWith json_file ".json.gz" = false → pyEndsWith json_file ".json" = true →
      Custom20BNJsonVideoAdapter.init json_file folder shuffle shuffleFn
          read_json read_gz_json frame_size frame_rate
        = .ok (Custom20BNJsonVideoAdapter.build (read_json json_file) folder
            shuffle shuffleFn frame_size frame_rate))
    ∧ (pyEndsWith json_file ".json.gz" = false → pyEndsWith json_file ".json" = false →
      Custom20BNJsonVideoAdapter.init json_file folder shuffle shuffleFn
          read_json read_gz_json frame_size frame_rate
        = .error "Wrong data file format (.json.gz or .json)") := by
  refine ⟨?_, ?_, ?_⟩
  · intro hgz
    simp [Custom20BNJsonVideoAdapter.init, hgz]
  · intro hgz hj
    simp [Custom20BNJsonVideoAdapter.init, hgz, hj]
  · intro hgz hj
    simp [Custom20BNJsonVideoAdapter.init, hgz, hj]

/-- Witness for C8 at the three file names v.json.gz, v.json and v.txt. -/
theorem json_constructor_extension_dispatch_witness :
    (Custom20BNJsonVideoAdapter.init "v.json.gz" "" false (fun l => l)
        (fun _ => []) (fun _ => []) (-1) 8
      = .ok (Custom20BNJsonVideoAdapter.build ((fun _ => ([] : List RawRecord)) "v.json.gz")
          "" false (fun l => l) (-1) 8))
    ∧ (Custom20BNJsonVideoAdapter.init "v.json" "" false (fun l => l)
        (fun _ => []) (fun _ => []) (-1) 8
      = .ok (Custom20BNJsonVideoAdapter.build ((fun _ => ([] : List RawRecord)) "v.json")
          "" false (fun l => l) (-1) 8))
    ∧ (Custom20BNJsonVideoAdapter.init "v.txt" "" false (fun l => l)
        (fun _ => []) (fun _ => []) (-1) 8
      = .error "Wrong data file format (.json.gz or .json)") :=
  ⟨(json_constructor_extension_dispatch "v.json.gz" "" false (fun l => l)
      (fun _ => []) (fun _ => []) (-1) 8).1 (by decide),
   (json_constructor_extension_dispatch "v.json" "" false (fun l => l)
      (fun _ => []) (fun _ => []) (-1) 8).2.1 (by decide) (by decide),
   (json_constructor_extension_dispatch "v.txt" "" false (fun l => l)
      (fun _ => []) (fun _ => []) (-1) 8).2.2 (by decide) (by decide)⟩

/-- C9: the semicolon-delimited headerless manifest with rows 1 cat, 2 dog,
3 cat, parsed unshuffled, produces the label dictionary cat to 0 and dog to
1 and the meta records (1, cat, 0), (2, dog, 1), (3, cat, 0) in that order. -/
theorem csv_example_manifest :
    Custom20BNCsvJpegAdapter.init "1;cat\n2;dog\n3;cat\n" "vids" false (fun l => l) (-1)
      = some
        { data := [{ id := "1", label := "cat" }, { id := "2", label := "dog" },
                   { id := "3", label := "cat" }],
          labels2idx := [("cat", 0), ("dog", 1)],
          all_meta := [{ id := "1", label := "cat", idx := 0 },
                       { id := "2", label := "dog", idx := 1 },
                       { id := "3", label := "cat", idx := 0 }],
          folder := "vids", shuffle := false, frame_size := -1 } := by
  decide

/-- C2 evaluation: with the default extension list and a tree holding both
r/a/x.jpg and r/a/y.png, parse_folder returns a record only for y.png, the
last configured extension, because the accumulation of glob results sits
outside the per-extension loop; the specified behaviour would also return a
record for x.jpg. -/
theorem parse_folder_last_extension_only :
    ImageFolderAdapter.parse_folder demoGlob [".jpg", ".png"] "r/"
      = [{ id := "y.png", label := "a", path := some "r/a" }] := by
  decide

/-- C3 evaluation: one iter_data call on the image-list adapter permanently
replaces the stored AllMeta: slicing [0, 1) truncates the two-record list,
and even the full slice [0, 2) pops the path field of the yielded records in
place, so AllMeta differs from its pre-iteration value in both cases. -/
theorem iter_data_mutates_all_meta :
    (ImageListAdapter.iter_data demoImageListAdapter allOkEnv 0 1).2.all_meta
      ≠ demoImageListAdapter.all_meta
    ∧ (ImageListAdapter.iter_data demoImageListAdapter allOkEnv 0 2).2.all_meta
      ≠ demoImageListAdapter.all_meta := by
  decide

theorem imgList_iterLoop_state_eq (st st2 : ImageListAdapter) (env : Env)
    (h1 : st2.root_folder = st.root_folder) (h2 : st2.img_size = st.img_size)
    (h3 : st2.label2idx = st.label2idx) :
    ∀ ms : List MetaRecord,
    ImageListAdapter.iterLoop st2 env ms = ImageListAdapter.iterLoop st env ms
  | [] => by simp [ImageListAdapter.iterLoop, h3]
  | m :: ms => by
    have ih := imgList_iterLoop_state_eq st st2 env h1 h2 h3 ms
    cases hp : m.path with
    | none => simp [ImageListAdapter.iterLoop, hp]
    | some p =>
      cases hr : env.resizeByShortEdge (joinPath st.root_folder p) st.img_size <;>
        simp [ImageListAdapter.iterLoop, hp, h1, h2, hr, ih]

theorem imgList_iterLoop_update (st : ImageListAdapter) (env : Env)
    (x ms : List MetaRecord) :
    ImageListAdapter.iterLoop { st with all_meta := x } env ms
      = ImageListAdapter.iterLoop st env ms :=
  imgList_iterLoop_state_eq st { st with all_meta := x } env rfl rfl rfl ms

theorem imgList_iterLoop_snd_length (st : ImageListAdapter) (env : Env) :
    ∀ ms : List MetaRecord, (ImageListAdapter.iterLoop st env ms).2.length = ms.length
  | [] => rfl
  | m :: ms => by
    have ih := imgList_iterLoop_snd_length st env ms
    cases hp : m.path with
    | none => simp [ImageListAdapter.iterLoop, hp]
    | some p =>
      cases hr : env.resizeByShortEdge (joinPath st.root_folder p) st.img_size <;>
        simp [ImageListAdapter.iterLoop, hp, hr, ih]

theorem imgList_iterLoop_second (st : ImageListAdapter) (env : Env) :
    ∀ ms : List MetaRecord,
    (∀ e ∈ (ImageListAdapter.iterLoop st env ms).1, IterEvent.isRaised e = false) →
    (∃ e ∈ (ImageListAdapter.iterLoop st env ms).1, IterEvent.isYield e = true) →
    ImageListAdapter.iterLoop st env (ImageListAdapter.iterLoop st env ms).2
      = ([IterEvent.raised (IterErr.keyError "path")],
         (ImageListAdapter.iterLoop st env ms).2)
  | [], _, hy => by
    simp [ImageListAdapter.iterLoop, IterEvent.isYield] at hy
  | m :: ms, hnr, hy => by
    cases hp : m.path with
    | none =>
      have := hnr (IterEvent.raised (IterErr.keyError "path"))
        (by simp [ImageListAdapter.iterLoop, hp])
      simp [IterEvent.isRaised] at this
    | some p =>
      cases hr : env.resizeByShortEdge (joinPath st.root_folder p) st.img_size with
      | some img =>
        have hsnd : (ImageListAdapter.iterLoop st env (m :: ms)).2
            = { m with path := none } :: (ImageListAdapter.iterLoop st env ms).2 := by
          simp [ImageListAdapter.iterLoop, hp, hr]
        rw [hsnd]
        simp [ImageListAdapter.iterLoop]
      | none =>
        have h1 : (ImageListAdapter.iterLoop st env (m :: ms)).1
            = (ImageListAdapter.iterLoop st env ms).1 := by
          simp [ImageListAdapter.iterLoop, hp, hr]
        have h2 : (ImageListAdapter.iterLoop st env (m :: ms)).2
            = m :: (ImageListAdapter.iterLoop st env ms).2 := by
          simp [ImageListAdapter.iterLoop, hp, hr]
        have ih := imgList_iterLoop_second st env ms
          (fun e he => hnr e (by rw [h1]; exact he))
          (by rw [← h1]; exact hy)
        rw [h2]
        simp [ImageListAdapter.iterLoop, hp, hr, ih]

/-- C10: the image-list adapter pops the path key in place from each meta
record it successfully yields, so after one completed non-empty iteration
over the full range on a freshly sized instance, a second full iter_data
call hits a record without a path key and aborts with KeyError on the
missing key before yielding anything. -/
theorem image_list_second_iteration_key_error
    (st : ImageListAdapter) (env : Env)
    (hfresh : st.all_meta.length = st.data.length)
    (hnr : ∀ e ∈ (ImageListAdapter.iter_data st env 0 (ImageListAdapter.len st)).1,
      IterEvent.isRaised e = false)
    (hy : ∃ e ∈ (ImageListAdapter.iter_data st env 0 (ImageListAdapter.len st)).1,
      IterEvent.isYield e = true) :
    (ImageListAdapter.iter_data
        (ImageListAdapter.iter_data st env 0 (ImageListAdapter.len st)).2 env 0
        (ImageListAdapter.len
          (ImageListAdapter.iter_data st env 0 (ImageListAdapter.len st)).2)).1
      = [IterEvent.raised (IterErr.keyError "path")]
    ∧ yieldsOf (ImageListAdapter.iter_data
        (ImageListAdapter.iter_data st env 0 (ImageListAdapter.len st)).2 env 0
        (ImageListAdapter.len
          (ImageListAdapter.iter_data st env 0 (ImageListAdapter.len st)).2)).1
      = [] := by
  have hslice : (st.all_meta.drop 0).take (ImageListAdapter.len st - 0) = st.all_meta := by
    rw [List.drop_zero]
    exact List.take_of_length_le (by rw [hfresh]; simp [ImageListAdapter.len])
  have hid : ImageListAdapter.iter_data st env 0 (ImageListAdapter.len st)
      = ((ImageListAdapter.iterLoop st env st.all_meta).1,
         { st with all_meta := (ImageListAdapter.iterLoop st env st.all_meta).2 }) := by
    simp only [ImageListAdapter.iter_data, hslice]
  rw [hid] at hnr hy
  have hsecond := imgList_iterLoop_second st env st.all_meta hnr hy
  have hlen2 : (ImageListAdapter.iterLoop st env st.all_meta).2.length
      = st.data.length := by
    rw [imgList_iterLoop_snd_length st env st.all_meta, hfresh]
  rw [hid]
  have hslice2 : (((ImageListAdapter.iterLoop st env st.all_meta).2.drop 0).take
      (ImageListAdapter.len
        { st with all_meta := (ImageListAdapter.iterLoop st env st.all_meta).2 } - 0))
      = (ImageListAdapter.iterLoop st env st.all_meta).2 := by
    rw [List.drop_zero]
    exact List.take_of_length_le (by rw [hlen2]; simp [ImageListAdapter.len])
  have hfst : (ImageListAdapter.iter_data
      { st with all_meta := (ImageListAdapter.iterLoop st env st.all_meta).2 } env 0
      (ImageListAdapter.len
        { st with all_meta := (ImageListAdapter.iterLoop st env st.all_meta).2 })).1
      = (ImageListAdapter.iterLoop
          { st with all_meta := (ImageListAdapter.iterLoop st env st.all_meta).2 } env
          ((ImageListAdapter.iterLoop st env st.all_meta).2)).1 := by
    simp only [ImageListAdapter.iter_data, hslice2]
  rw [hfst, imgList_iterLoop_update st env _ _, hsecond]
  exact ⟨rfl, rfl⟩

/-- Witness for C10: the two-record image-list adapter with one unreadable
image completes a first full iteration yielding one result, and the second
full iteration raises KeyError for the popped path key and yields nothing. -/
theorem image_list_second_iteration_key_error_witness :
    (ImageListAdapter.iter_data
        (ImageListAdapter.iter_data demoImageListAdapter mostlyOkEnv 0
          (ImageListAdapter.len demoImageListAdapter)).2 mostlyOkEnv 0
        (ImageListAdapter.len
          (ImageListAdapter.iter_data demoImageListAdapter mostlyOkEnv 0
            (ImageListAdapter.len demoImageListAdapter)).2)).1
      = [IterEvent.raised (IterErr.keyError "path")]
    ∧ yieldsOf (ImageListAdapter.iter_data
        (ImageListAdapter.iter_data demoImageListAdapter mostlyOkEnv 0
          (ImageListAdapter.len demoImageListAdapter)).2 mostlyOkEnv 0
        (ImageListAdapter.len
          (ImageListAdapter.iter_data demoImageListAdapter mostlyOkEnv 0
            (ImageListAdapter.len demoImageListAdapter)).2)).1
      = [] :=
  image_list_second_iteration_key_error demoImageListAdapter mostlyOkEnv
    (by decide) (by decide) (by decide)

/-- Witness for C6: a one-row CSV manifest built with the shuffle flag set
and a reversing shuffle still reports length 1, an image-folder adapter built
over the demo tree reports the parsed record count, and a full image-list
iteration that skips one record leaves the length at 2. -/
theorem length_manifest_based_witness :
    Custom20BNCsvJpegAdapter.len
      { data := [{ id := "1", label := "cat" }],
        labels2idx := [("cat", 0)],
        all_meta := [{ id := "1", label := "cat", idx := 0 }],
        folder := "f", shuffle := true, frame_size := -1 }
      = [({ id := "1", label := "cat" } : RawRecord)].length
    ∧ ImageFolderAdapter.len
        (ImageFolderAdapter.init demoGlob "r/" [".jpg", ".png"] true List.reverse (-1))
      = (ImageFolderAdapter.parse_folder demoGlob [".jpg", ".png"] "r/").length
    ∧ ImageListAdapter.len (ImageListAdapter.iter_data demoImageListAdapter mostlyOkEnv 0 2).2
      = ImageListAdapter.len demoImageListAdapter :=
  ⟨length_manifest_based.1 "1;cat" "f" true List.reverse (-1)
      [{ id := "1", label := "cat" }] _ (by decide) (by decide),
   length_manifest_based.2.2.2.1 demoGlob "r/" [".jpg", ".png"] true List.reverse (-1),
   length_manifest_based.2.2.2.2 demoImageListAdapter mostlyOkEnv 0 2⟩
